import Mathlib

/-!
A verification development for node-ldapauth (src/lib/ldapauth.js): a shallow
embedding of its connection/retry engine, user search, authentication flow and
shutdown path, together with theorems settling the claims of the specification.

External collaborators (ldapjs, backoff, bcrypt, once, the credential cache) are
modelled at their interfaces: network answers are passed in as explicit
environment values, the once-wrapper is reflected by functions that produce the
single list of callback invocations, and bcrypt is an abstract per-instance
salted hash function.
-/

namespace LdapAuth

/-! ## JavaScript string replacement

`_findUser` builds the search filter with
`opts.searchFilter.replace(usernameToken, username)` (line 286).
With string arguments, `String.prototype.replace` substitutes only the first
occurrence of the search string and expands dollar patterns in the replacement
text, so it is modelled in full here.
-/

/-- Splits `subject` at the first occurrence of `search`: the part before the
match and the part after it, or `none` when `search` does not occur.  This is
the search step of JavaScript String.prototype.replace with a string pattern
(an empty pattern matches at the start). -/
def findOcc (search : List Char) : List Char → Option (List Char × List Char)
  | [] => if search = [] then some ([], []) else none
  | c :: cs =>
    if List.isPrefixOf search (c :: cs) then
      some ([], List.drop search.length (c :: cs))
    else
      match findOcc search cs with
      | some (b, a) => some (c :: b, a)
      | none => none

/-- GetSubstitution from the JavaScript specification, restricted to a string
pattern (no capture groups): in the replacement text, a dollar followed by a
dollar inserts a dollar sign, dollar-ampersand inserts the matched text, a
dollar followed by the character 96 (backquote) inserts the part of the subject
before the match, a dollar followed by the character 39 (quote) inserts the
part after it; every other character, including dollar-digit since there are no
captures, is literal. -/
def expandDollar (matched before after : List Char) : List Char → List Char
  | [] => []
  | c :: cs =>
    if c = '$' then
      match cs with
      | [] => ['$']
      | d :: ds =>
        if d = '$' then '$' :: expandDollar matched before after ds
        else if d = '&' then matched ++ expandDollar matched before after ds
        else if d = Char.ofNat 96 then before ++ expandDollar matched before after ds
        else if d = Char.ofNat 39 then after ++ expandDollar matched before after ds
        else c :: d :: expandDollar matched before after ds
    else c :: expandDollar matched before after cs

/-- JavaScript String.prototype.replace with string arguments: replaces only
the first occurrence of the search string, expanding dollar patterns in the
replacement; returns the subject unchanged when the search string does not
occur. -/
def jsReplace (subject search replacement : String) : String :=
  match findOcc search.data subject.data with
  | none => subject
  | some (b, a) =>
    String.mk (b ++ expandDollar search.data b a replacement.data ++ a)

/-- The username placeholder of the search filter template. -/
def usernameToken : String := "\x7b\x7busername\x7d\x7d"

/-- The filter actually sent by _findUser (line 286):
`opts.searchFilter.replace(usernameToken, username)`. -/
def renderedSearchFilter (searchFilter username : String) : String :=
  jsReplace searchFilter usernameToken username

/-- The substitution as the claim reads it: the first occurrence of the
placeholder replaced by the username inserted verbatim (no dollar-pattern
expansion, no escaping of filter metacharacters, later occurrences untouched).
Stated from the words of the claim, to be compared with `renderedSearchFilter`. -/
def verbatimReplaceFirst (template username : String) : String :=
  match findOcc usernameToken.data template.data with
  | none => template
  | some (b, a) => String.mk (b ++ username.data ++ a)

/-- Equality of callback payloads is decidable, so concrete runs can be
evaluated inside proofs. -/
def exceptDecEq {ε α : Type} [DecidableEq ε] [DecidableEq α] :
    (a b : Except ε α) → Decidable (a = b)
  | .error a, .error b =>
    if h : a = b then .isTrue (h ▸ rfl)
    else .isFalse fun hh => h (Except.error.inj hh)
  | .error _, .ok _ => .isFalse fun h => Except.noConfusion h
  | .ok _, .error _ => .isFalse fun h => Except.noConfusion h
  | .ok a, .ok b =>
    if h : a = b then .isTrue (h ▸ rfl)
    else .isFalse fun hh => h (Except.ok.inj hh)

instance {ε α : Type} [DecidableEq ε] [DecidableEq α] : DecidableEq (Except ε α) :=
  exceptDecEq

/-! ## Data model -/

/-- A directory entry as _findUser collects it (entry.object): its DN plus an
opaque attribute map. -/
structure Entry where
  dn : String
  attrs : List (String × String)
deriving DecidableEq

/-- The errors the library hands to callbacks.  Error and string payloads of
the source are kept as messages; the source passes plain strings for the
non-zero-status, ambiguous and no-such-user cases. -/
inductive Err where
  | emptyUsername
  | notBound
  | searchErr (msg : String)
  | nonZeroStatus (status : Nat)
  | ambiguousMatches (count : Nat) (username : String)
  | noSuchUser (username : String)
  | invalidCredentials
  | bindError (msg : String)
  | connectError (msg : String)
deriving DecidableEq

/-- Observable side effects of a run: directory operations and the teardown
and bookkeeping steps the claims talk about.  crashTypeError marks the paths
where the source dereferences an undefined client. -/
inductive Action where
  | search (base : String) (filter : String) (scope : String)
  | connectAttempt
  | bindAttempt (dn : String)
  | keepAlive
  | socketEnd
  | unbindClient
  | abortRetry
  | removeListeners
  | registerHandlers
  | crashTypeError
deriving DecidableEq

/-! ## UserResolver: _findUser (lines 276-324) -/

/-- One event of the ldapjs search-result stream: a searchEntry, an error
event, or the end event with its status. -/
inductive SearchEvent where
  | entry (e : Entry)
  | fault (msg : String)
  | done (status : Nat)
deriving DecidableEq

/-- The answer of the environment to the issued search: either the search callback
itself reports an error, or a result stream of events. -/
inductive SearchOutcome where
  | failed (msg : String)
  | events (evs : List SearchEvent)
deriving DecidableEq

/-- The end-handler verdict at status 0 (lines 312-321): the result is decided
by the number of items collected. -/
def matchVerdict (username : String) (items : List Entry) : Except Err (Option Entry) :=
  match items with
  | [] => .ok none
  | [e] => .ok (some e)
  | _ => .error (.ambiguousMatches items.length username)

/-- The search-result event handlers of _findUser (lines 297-322): searchEntry
events push onto the shared items list; every error event invokes the callback
with a search error; every end event invokes the callback from its status and
the items collected so far.  Returns the callback invocations in order — the
handlers stay attached, so streams with several terminating events produce
several invocations. -/
def processEvents (username : String) : List SearchEvent → List Entry →
    List (Except Err (Option Entry))
  | [], _ => []
  | .entry e :: evs, items => processEvents username evs (items ++ [e])
  | .fault msg :: evs, items =>
    .error (.searchErr msg) :: processEvents username evs items
  | .done status :: evs, items =>
    (if status ≠ 0 then .error (.nonZeroStatus status)
     else matchVerdict username items) :: processEvents username evs items

/-- The options a run needs: the validated constructor fields plus the cache
flag and the retry policy.  retryRetries models opts.retry.retries
(none = unset). -/
structure Opts where
  url : String
  adminDn : String
  adminPassword : String
  searchBase : String
  searchFilter : String
  cache : Bool
  retryRetries : Option Nat
deriving DecidableEq

/-- _findUser (lines 276-324).  `adminClient` says whether this._adminClient is
set; `so` is the answer of the environment to the search.  Returns the callback
invocations (an absent user is success with no entry) and the trace of network
actions. -/
def findUser (opts : Opts) (adminClient : Bool) (username : String)
    (so : SearchOutcome) : List (Except Err (Option Entry)) × List Action :=
  if username = "" then ([.error .emptyUsername], [])
  else if !adminClient then ([.error .notBound], [])
  else
    let act := Action.search opts.searchBase
      (renderedSearchFilter opts.searchFilter username) "sub"
    match so with
    | .failed msg => ([.error (.searchErr msg)], [act])
    | .events evs => (processEvents username evs [], [act])

/-! ## RetryingConnector: _createClient (lines 153-235)

`_createClient` wraps `_createClientAttempt` in backoff.call with an
exponential strategy and failAfter(retries); the outer callback cb is
once-wrapped.  The interaction of an attempt with the network is its environment:
either the transport fails (client error event or connectTimeout before
connect), or it connects and the subsequent bind answers.
-/

/-- How the ldapjs client of one attempt answers. -/
inductive BindOutcome where
  | ok
  | invalidCred
  | otherErr (msg : String)
deriving DecidableEq

/-- The environment of one connect attempt. -/
inductive AttemptEnv where
  | connectFail (msg : String)
  | connected (b : BindOutcome)
deriving DecidableEq

/-- What one attempt reports back into the retry machinery. -/
inductive AttemptRes where
  | aborted
  | got
  | retryable (e : Err)
  | invalid (e : Err)
deriving DecidableEq

/-- One run of _createClientAttempt (lines 167-214).  `closedAtConnect` and
`closedAtBind` are the values of this.closed read at its two continuation
points (right after the transport connect, and at the start of the bind
callback).  aborted stands for the closed path: socket.end() then _cb() with no
client; got for _cb(null, client); retryable for _cb(err); invalid for the
invalid-credentials path, which calls the once-wrapped outer cb directly, ends
the socket and aborts the retry machinery. -/
def runAttempt (closedAtConnect closedAtBind : Bool) (dn : String) :
    AttemptEnv → AttemptRes × List Action
  | .connectFail msg => (.retryable (.connectError msg), [.connectAttempt])
  | .connected b =>
    if closedAtConnect then (.aborted, [.connectAttempt, .socketEnd])
    else if closedAtBind then
      (.aborted, [.connectAttempt, .bindAttempt dn, .socketEnd])
    else
      match b with
      | .ok => (.got, [.connectAttempt, .bindAttempt dn, .keepAlive])
      | .invalidCred =>
        (.invalid .invalidCredentials, [.connectAttempt, .bindAttempt dn, .socketEnd])
      | .otherErr msg =>
        (.retryable (.bindError msg), [.connectAttempt, .bindAttempt dn])

/-- The effective retry budget (lines 163-165): retryOpts.retries defaults to
Infinity, and a falsy configured value (0) also yields Infinity.  `none` stands
for Infinity. -/
def effRetries : Option Nat → Option Nat
  | none => none
  | some 0 => none
  | some (n + 1) => some (n + 1)

/-- One invocation of the once-wrapped outer callback cb of _createClient. -/
inductive ConnReport where
  | bound
  | noClient
  | failed (e : Err)
deriving DecidableEq

/-- A connector run: the invocations of the outer callback (at most one, by
the once wrapper and by construction), the number of attempts executed, and
the action trace. -/
structure ConnRun where
  reports : List ConnReport
  attempts : Nat
  actions : List Action
deriving DecidableEq

/-- The retry loop of _createClient: backoff.call(_createClientAttempt, cb)
with failAfter.  `fuel` is the number of attempts the budget still allows
(none = Infinity); `envs` feeds each attempt its environment, and an exhausted
list means the loop is still waiting (no report yet).  A successful attempt
reports the bound client; an attempt that saw closed reports _cb() with no
client, which backoff completes as cb(null, undefined); the invalid-credentials
path reports its error and aborts; a retryable failure either consumes fuel
and retries or, at the end of the budget, reports the last error. -/
def runConnector (closedAtConnect closedAtBind : Bool) (dn : String) :
    Option Nat → List AttemptEnv → ConnRun
  | _, [] => ⟨[], 0, []⟩
  | fuel, env :: envs =>
    let step := runAttempt closedAtConnect closedAtBind dn env
    match step.1 with
    | .got => ⟨[.bound], 1, step.2⟩
    | .aborted => ⟨[.noClient], 1, step.2⟩
    | .invalid e => ⟨[.failed e], 1, step.2⟩
    | .retryable e =>
      match fuel with
      | some 0 => ⟨[.failed e], 1, step.2⟩
      | some 1 => ⟨[.failed e], 1, step.2⟩
      | some (n + 2) =>
        let r := runConnector closedAtConnect closedAtBind dn (some (n + 1)) envs
        ⟨r.reports, r.attempts + 1, step.2 ++ r.actions⟩
      | none =>
        let r := runConnector closedAtConnect closedAtBind dn none envs
        ⟨r.reports, r.attempts + 1, step.2 ++ r.actions⟩

/-! ## AuthenticationService: authenticate (lines 330-385) -/

/-- A credential-cache entry: the bcrypt hash of the password (never the
plaintext) and the cached user record. -/
structure CacheEntry where
  password : String
  user : Entry
deriving DecidableEq

/-- The environment one authenticate call runs against: whether the admin
client is up, what userCache.get(username) answers, how the search answers,
the environments of the ephemeral user-bind connector, and the closed flag at
its continuation points. -/
structure AuthEnv where
  adminClient : Bool
  cached : Option CacheEntry
  searchOutcome : SearchOutcome
  connEnvs : List AttemptEnv
  closedAtConnect : Bool
  closedAtBind : Bool
deriving DecidableEq

/-- One authenticate run: the invocations of the callback of the caller, the action
trace, and the writes into the credential cache. -/
structure AuthRun where
  callbacks : List (Except Err Entry)
  actions : List Action
  cacheWrites : List (String × CacheEntry)
deriving DecidableEq

/-- The continuation of authenticate after _findUser answers (lines 344-384):
a resolution error propagates; an absent user fails with no-such-user; a
resolved user triggers the ephemeral connect-and-bind as the DN of that user via
_createClient with the same retry options, then an unbind whose error is
ignored and, with caching on, a cache write of the salted hash with the user
record.  When the connector completes with no client (the closed path) the
source dereferences the undefined client and throws, invoking no callback. -/
def authStep (opts : Opts) (hashFn : String → String) (env : AuthEnv)
    (username password : String) : Except Err (Option Entry) → AuthRun
  | .error e => ⟨[.error e], [], []⟩
  | .ok none => ⟨[.error (.noSuchUser username)], [], []⟩
  | .ok (some user) =>
    let r := runConnector env.closedAtConnect env.closedAtBind user.dn
      (effRetries opts.retryRetries) env.connEnvs
    match r.reports with
    | [] => ⟨[], r.actions, []⟩
    | .failed e :: _ => ⟨[.error e], r.actions, []⟩
    | .noClient :: _ => ⟨[], r.actions ++ [.crashTypeError], []⟩
    | .bound :: _ =>
      if opts.cache then
        ⟨[.ok user], r.actions ++ [.unbindClient],
         [(username, ⟨hashFn password, user⟩)]⟩
      else ⟨[.ok user], r.actions ++ [.unbindClient], []⟩

/-- The non-cached part of authenticate: _findUser, then the continuation for
each callback invocation _findUser makes. -/
def authMain (opts : Opts) (hashFn : String → String) (env : AuthEnv)
    (username password : String) : AuthRun :=
  let found := findUser opts env.adminClient username env.searchOutcome
  let steps := found.1.map (authStep opts hashFn env username password)
  ⟨(steps.map AuthRun.callbacks).flatten,
   found.2 ++ (steps.map AuthRun.actions).flatten,
   (steps.map AuthRun.cacheWrites).flatten⟩

/-- authenticate (lines 330-385).  bcrypt is modelled by the abstract salted
hash `hashFn` fixed per instance: compareSync(password, stored) holds exactly
when hashFn password = stored, and the hash written on success is
hashFn password.  With caching on and a cache hit whose hash matches, the
cached user is returned at once with no network action. -/
def authenticate (opts : Opts) (hashFn : String → String) (env : AuthEnv)
    (username password : String) : AuthRun :=
  if opts.cache then
    match env.cached with
    | some c =>
      if hashFn password = c.password then ⟨[.ok c.user], [], []⟩
      else authMain opts hashFn env username password
    | none => authMain opts hashFn env username password
  else authMain opts hashFn env username password

/-! ## Lifecycle: the constructor (lines 86-148) and close (lines 239-265) -/

/-- Events emitted on the LdapAuth instance itself. -/
inductive EmitEv where
  | connectEv
  | errorEv
  | closeEv
deriving DecidableEq

/-- The instance state the lifecycle claims talk about: this.closed,
whether this._adminClient is set, whether this._adminConnecting holds a live
retry handle, and the events emitted so far. -/
structure St where
  closed : Bool
  adminClient : Bool
  adminConnecting : Bool
  emitted : List EmitEv
deriving DecidableEq

/-- The instance state right after the constructor returns, while the first
admin connect attempt is still in flight. -/
def initSt : St := ⟨false, false, true, []⟩

/-- What close hands its once-wrapped callback. -/
inductive CloseRes where
  | ok
  | failed (msg : String)
deriving DecidableEq

/-- close (lines 239-265): set this.closed; with no admin client, abort the
in-flight retry if any and call back at once with no error; with a live admin
client, remove the proxy listeners and unbind — `unbindErr` is the
answer of the environment to that unbind — reporting an unbind error, or on success
emitting the close event and calling back with no error.  The admin client
reference is not cleared. -/
def close (unbindErr : Option String) (s : St) : St × CloseRes × List Action :=
  let s1 : St := { s with closed := true }
  if !s.adminClient then
    (s1, .ok, if s.adminConnecting then [.abortRetry] else [])
  else
    match unbindErr with
    | some msg => (s1, .failed msg, [.removeListeners, .unbindClient])
    | none =>
      ({ s1 with emitted := s1.emitted ++ [.closeEv] }, .ok,
       [.removeListeners, .unbindClient])

/-- The completion callback of the admin connect sequence (lines 116-146):
clear the connecting handle; an error is re-emitted as the error event; a
client arriving after close is unbound; otherwise handlers are registered, the
client is stored and the connect event is emitted.  When the callback runs
with neither an error nor a client (an attempt that observed closed completes
as cb(null, undefined)), the source dereferences the undefined client at
client.once and throws — the Bool marks that TypeError. -/
def adminConnectDone (s : St) (err : Option Err) (client : Bool) :
    St × List Action × Bool :=
  let s1 : St := { s with adminConnecting := false }
  match err with
  | some _ => ({ s1 with emitted := s1.emitted ++ [.errorEv] }, [], false)
  | none =>
    if s1.closed && client then (s1, [.unbindClient], false)
    else if !client then (s1, [.crashTypeError], true)
    else
      ({ s1 with adminClient := true, emitted := s1.emitted ++ [.connectEv] },
       [.registerHandlers], false)

/-- assert.string (line 87): passes exactly when the value is a string, empty
or not. -/
def assertString : Option String → Bool
  | none => false
  | some _ => true

/-- assert.ok (lines 88-90): passes exactly when the value is truthy; the
empty string is falsy. -/
def assertOk : Option String → Bool
  | none => false
  | some s => s != ""

/-- The validation of the constructor (lines 87-90): assert.string on opts.url and
assert.ok on opts.adminDn, opts.searchBase and opts.searchFilter, in that
order.  A missing field is modelled as none. -/
def validateOpts (url adminDn searchBase searchFilter : Option String) : Bool :=
  assertString url && assertOk adminDn && assertOk searchBase &&
    assertOk searchFilter

/-- The constructor (lines 86-148): the asserts run first; only when they all
pass is the state set up and the admin connect sequence started (its first
attempt opens the network connection).  A failed assert throws before any
I/O. -/
def constructLdapAuth (url adminDn searchBase searchFilter : Option String) :
    Option St × List Action :=
  if validateOpts url adminDn searchBase searchFilter then
    (some initSt, [.connectAttempt])
  else (none, [])

/-- Whether a search-result event triggers a callback invocation in _findUser
(an error event or an end event, as opposed to a searchEntry). -/
def isTerminator : SearchEvent → Bool
  | .entry _ => false
  | .fault _ => true
  | .done _ => true

/-- A search answer whose stream invokes the _findUser callback exactly once:
an immediate search error, or a stream with exactly one terminating event. -/
def searchTerminatorsOnce : SearchOutcome → Bool
  | .failed _ => true
  | .events evs => evs.countP isTerminator == 1

/-! ## Helper lemmas -/

/-- A dollar-free replacement text is inserted verbatim by GetSubstitution. -/
theorem expandDollar_no_dollar (matched before after : List Char)
    (r : List Char) (h : '$' ∉ r) : expandDollar matched before after r = r := by
  induction r with
  | nil => rfl
  | cons c cs ih =>
    have hc : ¬c = '$' := fun e => h (e ▸ List.mem_cons_self c cs)
    have hcs : '$' ∉ cs := fun m => h (List.mem_cons_of_mem c m)
    have hstep : expandDollar matched before after (c :: cs) =
        c :: expandDollar matched before after cs := by
      conv_lhs => rw [expandDollar.eq_def]
      simp [hc]
    rw [hstep, ih hcs]

/-- Entry events only accumulate items; the handlers then run on the rest of
the stream with the grown items list. -/
theorem processEvents_entries (username : String) (entries : List Entry)
    (tail : List SearchEvent) (items : List Entry) :
    processEvents username (entries.map SearchEvent.entry ++ tail) items =
      processEvents username tail (items ++ entries) := by
  induction entries generalizing items with
  | nil => simp
  | cons e es ih =>
    simp [processEvents, ih, List.append_assoc]

/-- _findUser invokes its callback once per terminating event of the stream. -/
theorem processEvents_length (username : String) (evs : List SearchEvent)
    (items : List Entry) :
    (processEvents username evs items).length = evs.countP isTerminator := by
  induction evs generalizing items with
  | nil => rfl
  | cons ev evs ih =>
    cases ev <;> simp [processEvents, isTerminator, List.countP_cons, ih]

/-- The result an attempt reports does not depend on the DN it binds as (only
its action trace mentions the DN). -/
theorem runAttempt_fst_dn (cC cB : Bool) (dn dn' : String) (env : AttemptEnv) :
    (runAttempt cC cB dn env).1 = (runAttempt cC cB dn' env).1 := by
  cases env with
  | connectFail msg => rfl
  | connected b => cases cC <;> cases cB <;> cases b <;> rfl

/-- Hence the connector reports do not depend on the DN either. -/
theorem runConnector_reports_dn (cC cB : Bool) (dn dn' : String)
    (fuel : Option Nat) (envs : List AttemptEnv) :
    (runConnector cC cB dn fuel envs).reports =
      (runConnector cC cB dn' fuel envs).reports := by
  induction envs generalizing fuel with
  | nil => rfl
  | cons env envs ih =>
    simp only [runConnector]
    rw [runAttempt_fst_dn cC cB dn dn' env]
    cases (runAttempt cC cB dn' env).1 with
    | got => rfl
    | aborted => rfl
    | invalid e => rfl
    | retryable e => cases fuel with
      | none => simpa using ih none
      | some n => match n with
        | 0 => rfl
        | 1 => rfl
        | n + 2 => simpa using ih (some (n + 1))

/-- With the instance not closed, no attempt reports the aborted-with-no-client
completion, so the connector never reports noClient. -/
theorem runConnector_no_noClient (dn : String) (fuel : Option Nat)
    (envs : List AttemptEnv) :
    ConnReport.noClient ∉ (runConnector false false dn fuel envs).reports := by
  induction envs generalizing fuel with
  | nil => simp [runConnector]
  | cons env envs ih =>
    simp only [runConnector]
    cases henv : (runAttempt false false dn env).1 with
    | got => simp
    | aborted =>
      exfalso
      cases env with
      | connectFail msg => simp [runAttempt] at henv
      | connected b => cases b <;> simp [runAttempt] at henv
    | invalid e => simp
    | retryable e => cases fuel with
      | none => simpa using ih none
      | some n => match n with
        | 0 => simp
        | 1 => simp
        | n + 2 => simpa using ih (some (n + 1))

/-- Every bind the attempt issues is as the DN the connector was given. -/
theorem runAttempt_bind_dn (cC cB : Bool) (dn d : String) (env : AttemptEnv)
    (h : Action.bindAttempt d ∈ (runAttempt cC cB dn env).2) : d = dn := by
  cases env with
  | connectFail msg => simp [runAttempt] at h
  | connected b =>
    cases cC <;> cases cB <;> cases b <;> simp [runAttempt] at h <;> exact h

/-- Every bind the connector issues is as the DN it was given. -/
theorem runConnector_bind_dn (cC cB : Bool) (dn d : String) (fuel : Option Nat)
    (envs : List AttemptEnv)
    (h : Action.bindAttempt d ∈ (runConnector cC cB dn fuel envs).actions) :
    d = dn := by
  induction envs generalizing fuel with
  | nil => simp [runConnector] at h
  | cons env envs ih =>
    simp only [runConnector] at h
    cases henv : (runAttempt cC cB dn env).1 with
    | got => rw [henv] at h; exact runAttempt_bind_dn cC cB dn d env h
    | aborted => rw [henv] at h; exact runAttempt_bind_dn cC cB dn d env h
    | invalid e => rw [henv] at h; exact runAttempt_bind_dn cC cB dn d env h
    | retryable e =>
      rw [henv] at h
      cases fuel with
      | none =>
        rcases List.mem_append.mp (by simpa using h) with h1 | h2
        · exact runAttempt_bind_dn cC cB dn d env h1
        · exact ih none h2
      | some n => match n with
        | 0 => exact runAttempt_bind_dn cC cB dn d env h
        | 1 => exact runAttempt_bind_dn cC cB dn d env h
        | n + 2 =>
          rcases List.mem_append.mp (by simpa using h) with h1 | h2
          · exact runAttempt_bind_dn cC cB dn d env h1
          · exact ih (some (n + 1)) h2

/-! ## Claim theorems -/

/-- C2: for every connection attempt of the connector, a bind failure
classified invalid-credentials is terminal — all further retries are aborted
at once (one attempt, whatever environments follow) and this specific error is
reported to the caller exactly once — while a bind failure with any other
cause is classified retryable and, under the default unbounded budget, the
next attempt runs. -/
theorem c2_terminal_vs_retryable (dn msg : String) (fuel : Option Nat)
    (envs : List AttemptEnv) :
    (runConnector false false dn fuel (.connected .invalidCred :: envs) =
      ⟨[.failed .invalidCredentials], 1,
       [.connectAttempt, .bindAttempt dn, .socketEnd]⟩) ∧
    ((runAttempt false false dn (.connected (.otherErr msg))).1 =
      .retryable (.bindError msg)) ∧
    (runConnector false false dn none (.connected (.otherErr msg) :: envs) =
      ⟨(runConnector false false dn none envs).reports,
       (runConnector false false dn none envs).attempts + 1,
       [.connectAttempt, .bindAttempt dn] ++
         (runConnector false false dn none envs).actions⟩) :=
  ⟨rfl, rfl, rfl⟩

/-- C4: a user search that completes with status 0 is decided solely by the
number of collected entries: zero matches succeed with an absent user, one
match succeeds with that entry, more than one match is the ambiguous-username
error. -/
theorem c4_status_zero_match_policy (username : String) (entries : List Entry) :
    (processEvents username (entries.map SearchEvent.entry ++ [.done 0]) [] =
      [matchVerdict username entries]) ∧
    (matchVerdict username [] = .ok none) ∧
    (∀ e, matchVerdict username [e] = .ok (some e)) ∧
    (∀ e e2 rest, matchVerdict username (e :: e2 :: rest) =
      .error (.ambiguousMatches (rest.length + 2) username)) := by
  refine ⟨?_, rfl, fun e => rfl, fun e e2 rest => ?_⟩
  · rw [processEvents_entries]
    simp [processEvents]
  · simp [matchVerdict]

/-- C7: with caching enabled, a cache hit whose stored hash matches the
hash of the supplied password returns the cached user record immediately, with no
network action and no cache write. -/
theorem c7_cache_hit (opts : Opts) (hashFn : String → String) (env : AuthEnv)
    (username password : String) (c : CacheEntry) (hcache : opts.cache = true)
    (hget : env.cached = some c) (hmatch : hashFn password = c.password) :
    authenticate opts hashFn env username password = ⟨[.ok c.user], [], []⟩ := by
  simp [authenticate, hcache, hget, hmatch]

/-- Witness for C7 at a concrete configuration, cache entry and password. -/
theorem c7_cache_hit_witness :
    authenticate
      ⟨"ldap://x", "cn=admin", "pw", "ou=users",
        "(uid=\x7b\x7busername\x7d\x7d)", true, none⟩
      (fun p => String.append "H-" p)
      ⟨true, some ⟨"H-secret", ⟨"uid=jdoe,ou=users", [("uid", "jdoe")]⟩⟩,
        .events [], [], false, false⟩
      "jdoe" "secret" =
      ⟨[.ok ⟨"uid=jdoe,ou=users", [("uid", "jdoe")]⟩], [], []⟩ :=
  c7_cache_hit _ _ _ _ _ _ rfl rfl rfl

/-- C8: _findUser with an empty username fails with the validation error and
issues no search; without an established admin client it fails with the
not-yet-bound error and issues no search. -/
theorem c8_findUser_preconditions (opts : Opts) (adminClient : Bool)
    (so : SearchOutcome) (username : String) (h : username ≠ "") :
    (findUser opts adminClient "" so = ([.error .emptyUsername], [])) ∧
    (findUser opts false username so = ([.error .notBound], [])) := by
  refine ⟨rfl, ?_⟩
  simp [findUser, h]

/-- Witness for C8 at a concrete configuration and username. -/
theorem c8_findUser_preconditions_witness :
    (findUser ⟨"ldap://x", "cn=admin", "pw", "ou=users",
        "(uid=\x7b\x7busername\x7d\x7d)", false, none⟩ true "" (.events []) =
      ([.error .emptyUsername], [])) ∧
    (findUser ⟨"ldap://x", "cn=admin", "pw", "ou=users",
        "(uid=\x7b\x7busername\x7d\x7d)", false, none⟩ false "jdoe" (.events []) =
      ([.error .notBound], [])) :=
  ⟨(c8_findUser_preconditions _ true (.events []) "jdoe" (by decide)).1,
   (c8_findUser_preconditions _ false (.events []) "jdoe" (by decide)).2⟩

/-- C9 fails on the code: the constructor checks opts.url only with
assert.string, which an empty string passes, so a Config with an empty
endpoint URL is accepted and the connect sequence starts. -/
theorem c9_counterexample :
    validateOpts (some "") (some "cn=admin") (some "ou=users")
      (some "(uid=\x7b\x7busername\x7d\x7d)") = true ∧
    constructLdapAuth (some "") (some "cn=admin") (some "ou=users")
      (some "(uid=\x7b\x7busername\x7d\x7d)") =
      (some initSt, [.connectAttempt]) :=
  ⟨rfl, rfl⟩

/-- C9 (amended): the admin DN, search base and search filter must be present
and non-empty, and the URL must be present as a string; a Config missing any
of these, or with an empty admin DN, search base or search filter, is rejected
at construction before any I/O — but an empty URL string passes validation and
construction proceeds. -/
theorem c9_construction_validation
    (url adminDn searchBase searchFilter : Option String) (u d b f : String)
    (hd : d ≠ "") (hb : b ≠ "") (hf : f ≠ "") :
    (constructLdapAuth none adminDn searchBase searchFilter = (none, [])) ∧
    (constructLdapAuth url none searchBase searchFilter = (none, [])) ∧
    (constructLdapAuth url (some "") searchBase searchFilter = (none, [])) ∧
    (constructLdapAuth url adminDn none searchFilter = (none, [])) ∧
    (constructLdapAuth url adminDn (some "") searchFilter = (none, [])) ∧
    (constructLdapAuth url adminDn searchBase none = (none, [])) ∧
    (constructLdapAuth url adminDn searchBase (some "") = (none, [])) ∧
    (constructLdapAuth (some u) (some d) (some b) (some f) =
      (some initSt, [.connectAttempt])) := by
  refine ⟨?_, ?_, ?_, ?_, ?_, ?_, ?_, ?_⟩ <;>
    simp [constructLdapAuth, validateOpts, assertString, assertOk, hd, hb, hf]

/-- Witness for C9 (amended) at a concrete configuration. -/
theorem c9_construction_validation_witness :
    constructLdapAuth (some "ldap://x") (some "cn=admin") (some "ou=users")
      (some "(uid=\x7b\x7busername\x7d\x7d)") =
      (some initSt, [.connectAttempt]) :=
  (c9_construction_validation none none none none "ldap://x" "cn=admin"
    "ou=users" "(uid=\x7b\x7busername\x7d\x7d)" (by decide) (by decide)
    (by decide)).2.2.2.2.2.2.2

/-- C10 fails on the code: _findUser substitutes with JavaScript
String.prototype.replace, whose replacement text is not inserted verbatim —
dollar patterns are expanded.  For the username consisting of two dollar
signs, the sent filter collapses it to one dollar sign, differing from the
verbatim first-occurrence replacement. -/
theorem c10_counterexample :
    renderedSearchFilter "(uid=\x7b\x7busername\x7d\x7d)" "$$" = "(uid=$)" ∧
    verbatimReplaceFirst "(uid=\x7b\x7busername\x7d\x7d)" "$$" = "(uid=$$)" ∧
    renderedSearchFilter "(uid=\x7b\x7busername\x7d\x7d)" "$$" ≠
      verbatimReplaceFirst "(uid=\x7b\x7busername\x7d\x7d)" "$$" :=
  ⟨rfl, rfl, by decide⟩

/-- C10 (amended): the sent filter is the template with only the first
occurrence of the placeholder replaced — later occurrences untouched, no LDAP
metacharacter escaping — with the username inserted under JavaScript
replacement semantics; the insertion is verbatim exactly for usernames
containing no dollar sign. -/
theorem c10_first_occurrence_substitution (template username : String)
    (h : '$' ∉ username.data) :
    renderedSearchFilter template username =
      verbatimReplaceFirst template username := by
  unfold renderedSearchFilter jsReplace verbatimReplaceFirst
  cases hfo : findOcc usernameToken.data template.data with
  | none => rfl
  | some ba =>
    obtain ⟨b, a⟩ := ba
    show String.mk (b ++ expandDollar usernameToken.data b a username.data ++ a) =
      String.mk (b ++ username.data ++ a)
    rw [expandDollar_no_dollar usernameToken.data b a username.data h]

/-- Witness for C10 (amended): a dollar-free username in a template with two
placeholder occurrences, of which only the first is substituted. -/
theorem c10_first_occurrence_substitution_witness :
    renderedSearchFilter
        "(&(uid=\x7b\x7busername\x7d\x7d)(cn=\x7b\x7busername\x7d\x7d))"
        "jd*)(oe" =
      verbatimReplaceFirst
        "(&(uid=\x7b\x7busername\x7d\x7d)(cn=\x7b\x7busername\x7d\x7d))"
        "jd*)(oe" ∧
    renderedSearchFilter
        "(&(uid=\x7b\x7busername\x7d\x7d)(cn=\x7b\x7busername\x7d\x7d))"
        "jd*)(oe" =
      "(&(uid=jd*)(oe)(cn=\x7b\x7busername\x7d\x7d))" :=
  ⟨c10_first_occurrence_substitution _ _ (by decide), rfl⟩

/-- C1 fails on the code: the password-verification connect-and-bind reuses
the full retry loop of _createClient (retries defaulting to Infinity), so a
transport failure on the first attempt leads to a second connect-and-bind
attempt — here the verification makes two connect attempts, not exactly
one. -/
theorem c1_counterexample :
    (authenticate ⟨"ldap://x", "cn=admin", "pw", "ou=users",
        "(uid=\x7b\x7busername\x7d\x7d)", false, none⟩ (fun p => p)
        ⟨true, none,
          .events [.entry ⟨"uid=jdoe,ou=users", [("uid", "jdoe")]⟩, .done 0],
          [.connectFail "network error", .connected .ok], false, false⟩
        "jdoe" "secret").actions.count .connectAttempt = 2 ∧
    (2 : Nat) ≠ 1 :=
  ⟨rfl, by decide⟩

/-- C1 (amended): the password verification reuses the retrying connector with
the configured retry policy (unbounded by default), every bind being as the
DN of the resolved user: an invalid-credentials bind failure ends the verification
within the attempt in which it occurs, but a transport failure is retried, so
more than one connect-and-bind attempt can occur. -/
theorem c1_user_bind_uses_retry_loop (opts : Opts) (hashFn : String → String)
    (env : AuthEnv) (username password : String) (user : Entry)
    (d msg : String) (t : List AttemptEnv)
    (hC : env.closedAtConnect = false) (hB : env.closedAtBind = false)
    (hR : opts.retryRetries = none) (hcache : opts.cache = false) :
    (Action.bindAttempt d ∈
        (authStep opts hashFn env username password (.ok (some user))).actions →
      d = user.dn) ∧
    (env.connEnvs = [.connected .invalidCred] ++ t →
      authStep opts hashFn env username password (.ok (some user)) =
        ⟨[.error .invalidCredentials],
         [.connectAttempt, .bindAttempt user.dn, .socketEnd], []⟩) ∧
    (env.connEnvs = [.connectFail msg, .connected .ok] ++ t →
      authStep opts hashFn env username password (.ok (some user)) =
        ⟨[.ok user],
         [.connectAttempt, .connectAttempt, .bindAttempt user.dn, .keepAlive,
          .unbindClient], []⟩) := by
  refine ⟨?_, ?_, ?_⟩
  · intro hmem
    refine runConnector_bind_dn env.closedAtConnect env.closedAtBind user.dn d
      (effRetries opts.retryRetries) env.connEnvs ?_
    simp only [authStep] at hmem
    revert hmem
    cases (runConnector env.closedAtConnect env.closedAtBind user.dn
        (effRetries opts.retryRetries) env.connEnvs).reports with
    | nil => exact fun hmem => hmem
    | cons rep tl =>
      cases rep with
      | bound =>
        rw [hcache]
        intro hmem
        simpa using hmem
      | noClient =>
        intro hmem
        simpa using hmem
      | failed e => exact fun hmem => hmem
  · intro hE
    simp only [authStep, hC, hB, hR, hE, hcache, effRetries]
    rfl
  · intro hE
    simp only [authStep, hC, hB, hR, hE, hcache, effRetries]
    rfl

/-- Witness for C1 (amended): a transport blip followed by a successful bind
gives two connect attempts, both binds as the resolved DN. -/
theorem c1_user_bind_uses_retry_loop_witness :
    authStep ⟨"ldap://x", "cn=admin", "pw", "ou=users",
        "(uid=\x7b\x7busername\x7d\x7d)", false, none⟩ (fun p => p)
      ⟨true, none, .events [], [.connectFail "network error", .connected .ok],
        false, false⟩
      "jdoe" "secret" (.ok (some ⟨"uid=jdoe,ou=users", [("uid", "jdoe")]⟩)) =
      ⟨[.ok ⟨"uid=jdoe,ou=users", [("uid", "jdoe")]⟩],
       [.connectAttempt, .connectAttempt, .bindAttempt "uid=jdoe,ou=users",
        .keepAlive, .unbindClient], []⟩ :=
  (c1_user_bind_uses_retry_loop _ _ _ "jdoe" "secret" _ "x" "network error" []
    rfl rfl rfl rfl).2.2 rfl

/-- C3 fails on the code: the _findUser handlers are not once-guarded, so a
search-result stream that emits two error events invokes the authenticate
callback twice. -/
theorem c3_counterexample :
    (authenticate ⟨"ldap://x", "cn=admin", "pw", "ou=users",
        "(uid=\x7b\x7busername\x7d\x7d)", false, none⟩ (fun p => p)
        ⟨true, none, .events [.fault "e1", .fault "e2"], [], false, false⟩
        "jdoe" "secret").callbacks.length = 2 ∧
    (2 : Nat) ≠ 1 :=
  ⟨rfl, by decide⟩

/-- C3 (amended): the authenticate callback is invoked exactly once provided
the search answer carries exactly one terminating event (one error event or
one end event — the ldapjs contract), the service is not closed during the
verification, and the verification connector completes; streams with extra
terminating events invoke it once more per such event, and streams with none
never complete. -/
theorem c3_single_completion (opts : Opts) (hashFn : String → String)
    (env : AuthEnv) (username password : String)
    (hC : env.closedAtConnect = false) (hB : env.closedAtBind = false)
    (hSO : searchTerminatorsOnce env.searchOutcome = true)
    (hConn : (runConnector false false "" (effRetries opts.retryRetries)
        env.connEnvs).reports.length = 1) :
    (authenticate opts hashFn env username password).callbacks.length = 1 := by
  have hstep : ∀ r,
      (authStep opts hashFn env username password r).callbacks.length = 1 := by
    intro r
    match r with
    | .error e => rfl
    | .ok none => rfl
    | .ok (some user) =>
      have hlen : (runConnector false false user.dn
          (effRetries opts.retryRetries) env.connEnvs).reports.length = 1 := by
        rw [runConnector_reports_dn false false user.dn ""]
        exact hConn
      obtain ⟨x, hx⟩ := List.length_eq_one.mp hlen
      have hnc := runConnector_no_noClient user.dn
        (effRetries opts.retryRetries) env.connEnvs
      simp only [authStep, hC, hB]
      rw [hx]
      cases x with
      | noClient => exact absurd (hx ▸ List.mem_singleton_self _) hnc
      | bound => cases hoc : opts.cache <;> simp [hoc]
      | failed e => rfl
  have hfind : (findUser opts env.adminClient username
      env.searchOutcome).1.length = 1 := by
    by_cases hu : username = ""
    · simp [findUser, hu]
    · cases hac : env.adminClient with
      | false => simp [findUser, hu, hac]
      | true =>
        cases hso : env.searchOutcome with
        | failed msg => simp [findUser, hu, hac, hso]
        | events evs =>
          rw [hso] at hSO
          simp only [searchTerminatorsOnce, beq_iff_eq] at hSO
          simp [findUser, hu, hac, hso, processEvents_length, hSO]
  have hmain : (authMain opts hashFn env username password).callbacks.length
      = 1 := by
    obtain ⟨r, hr⟩ := List.length_eq_one.mp hfind
    simp only [authMain]
    rw [hr]
    simp [hstep r]
  simp only [authenticate]
  cases hcache : opts.cache with
  | false => simpa using hmain
  | true =>
    cases hc : env.cached with
    | none => simpa using hmain
    | some c =>
      by_cases hm : hashFn password = c.password
      · simp [hm]
      · simpa [hm] using hmain

/-- Witness for C3 (amended) at a concrete single-entry, single-end run. -/
theorem c3_single_completion_witness :
    (authenticate ⟨"ldap://x", "cn=admin", "pw", "ou=users",
        "(uid=\x7b\x7busername\x7d\x7d)", false, none⟩ (fun p => p)
        ⟨true, none,
          .events [.entry ⟨"uid=jdoe,ou=users", [("uid", "jdoe")]⟩, .done 0],
          [.connected .ok], false, false⟩
        "jdoe" "secret").callbacks.length = 1 :=
  c3_single_completion _ _ _ "jdoe" "secret" rfl rfl (by decide) (by decide)

/-- C5: after constructing the service and closing before any connect has
completed, close() completes without error (aborting the in-flight retry),
and no connect or bind side effect follows: an attempt that observes the
closed flag never issues a bind, tears down its half-open transport when the
transport had connected, and cannot hand over a client; and in the closed
state the connect-completion handler never stores an admin client and never
emits the connect event. -/
theorem c5_close_before_connect (unbindErr : Option String) (dn : String)
    (env : AttemptEnv) (b : BindOutcome) (s : St) (err : Option Err)
    (client : Bool) (hs : s.closed = true) :
    ((close unbindErr initSt).2.1 = .ok) ∧
    ((close unbindErr initSt).1 = ⟨true, false, true, []⟩) ∧
    ((close unbindErr initSt).2.2 = [.abortRetry]) ∧
    ((runAttempt true true dn env).1 ≠ .got) ∧
    (∀ d, Action.bindAttempt d ∉ (runAttempt true true dn env).2) ∧
    (runAttempt true true dn (.connected b) =
      (.aborted, [.connectAttempt, .socketEnd])) ∧
    ((adminConnectDone s err client).1.adminClient = s.adminClient) ∧
    ((adminConnectDone s err client).1.emitted.count .connectEv =
      s.emitted.count .connectEv) := by
  refine ⟨rfl, rfl, rfl, ?_, ?_, rfl, ?_, ?_⟩
  · cases env with
    | connectFail msg => simp [runAttempt]
    | connected bb => simp [runAttempt]
  · intro d
    cases env with
    | connectFail msg => simp [runAttempt]
    | connected bb => simp [runAttempt]
  · cases err with
    | some e => rfl
    | none => cases client <;> simp [adminConnectDone, hs]
  · cases err with
    | some e => simp [adminConnectDone, List.count_append]
    | none => cases client <;> simp [adminConnectDone, hs]

/-- Witness for C5 at the freshly constructed state. -/
theorem c5_close_before_connect_witness :
    ((close none initSt).2.1 = CloseRes.ok) ∧
    ((adminConnectDone ⟨true, false, false, []⟩ none false).1.adminClient
      = false) := by
  have h := c5_close_before_connect none "cn=x" (.connected .ok) .ok
    ⟨true, false, false, []⟩ none false rfl
  exact ⟨h.1, h.2.2.2.2.2.2.1⟩

/-- C6 fails on the code: close() on a never-connected instance completes
without error but emits no close notification at all — the close event is
emitted only on the successful-unbind path, so listeners do not receive it
exactly once in the never-connected case. -/
theorem c6_counterexample :
    (close none initSt).2.1 = CloseRes.ok ∧
    (close none initSt).1.emitted = [] ∧
    (close none initSt).1.emitted.count EmitEv.closeEv ≠ 1 :=
  ⟨rfl, rfl, by decide⟩

/-- C6 (amended): close() completes without error and is safe before the
first successful connect; with no live admin client it is idempotent — a
repeated call succeeds and changes nothing further — but emits no close
notification; with a live admin client and a successful unbind it completes
without error and emits the close notification once per such call. -/
theorem c6_close_idempotent_when_unconnected (s t : St) (u1 u2 : Option String)
    (hs : s.adminClient = false) (ht : t.adminClient = true) :
    ((close u1 s).2.1 = .ok) ∧
    ((close u1 s).1 = { s with closed := true }) ∧
    ((close u1 s).1.emitted.count .closeEv = s.emitted.count .closeEv) ∧
    ((close u2 (close u1 s).1).2.1 = .ok) ∧
    ((close u2 (close u1 s).1).1 = (close u1 s).1) ∧
    ((close none t).2.1 = .ok) ∧
    ((close none t).1.emitted.count .closeEv =
      t.emitted.count .closeEv + 1) := by
  refine ⟨?_, ?_, ?_, ?_, ?_, ?_, ?_⟩ <;>
    simp [close, hs, ht, List.count_append]

/-- Witness for C6 (amended) at the fresh state and a connected state. -/
theorem c6_close_idempotent_when_unconnected_witness :
    ((close none initSt).2.1 = CloseRes.ok) ∧
    ((close none (close none initSt).1).1 = (close none initSt).1) ∧
    ((close none ⟨false, true, false, []⟩).1.emitted.count EmitEv.closeEv
      = 1) := by
  have h := c6_close_idempotent_when_unconnected initSt
    ⟨false, true, false, []⟩ none none rfl rfl
  exact ⟨h.1, h.2.2.2.2.1, by simpa using h.2.2.2.2.2.2⟩

end LdapAuth
